import Mathlib

/-!
Verification of the banking-system repository: accounts with balances and
transaction logs, a bank (ledger) keyed by account id, and the CSV
persistence mirror. Monetary amounts are modelled as exact rationals
(the Python source stores them in `float` fields but all specified
behaviour is decimal arithmetic). Methods that may raise are embedded as
functions returning an `Option BankError` (the raised error, if any)
paired with the state of the object at the moment the method returns or
raises; a `raise` before any mutation therefore pairs the error with the
unmodified state, exactly mirroring the source's control flow.
-/

/-- Error kinds raised by the source (as distinct `ValueError` messages):
`invalidAmount` = "amount must be greater than zero", `insufficientFunds` =
"Insufficient funds...", `invalidCategory` = "Invalid account type...",
`invalidRate` = "Interest rate and duration must be positive values.",
`accountNotFound` = "Account not found.". -/
inductive BankError where
  | invalidAmount
  | insufficientFunds
  | invalidCategory
  | invalidRate
  | accountNotFound
deriving DecidableEq, Repr

/-- Transaction record (banking_system_components/transaction.py).
The uuid-generated `transaction_id` is an opaque fresh token unused by any
behaviour and is not modelled. -/
structure Transaction where
  transaction_type : String
  amount : ℚ
  target_account : Option String
deriving DecidableEq, Repr

/-- Bank account state (banking_system_components/account.py, `__init__`
fields). `account_id` is the uuid string generated at construction, passed
here as a parameter. -/
structure Account where
  account_id : String
  first_name : String
  last_name : String
  age : Int
  state : String
  job : String
  account_type : String
  balance : ℚ
  transactions : List Transaction
deriving DecidableEq, Repr

/-- The field assignments of `Account.__init__` once its category check
has passed: `balance = initial_balance`, empty transaction list,
`account_id` the generated uuid (passed as a parameter). -/
def Account.mkFields (first_name last_name : String) (age : Int)
    (state job : String) (account_type : String) (initial_balance : ℚ)
    (account_id : String) : Account :=
  { account_id := account_id, first_name := first_name,
    last_name := last_name, age := age, state := state, job := job,
    account_type := account_type, balance := initial_balance,
    transactions := [] }

/-- Embeds `Account.__init__`: raises `ValueError` (InvalidCategory) when
`account_type not in ["Checking", "Savings"]`; otherwise initialises the
fields as in `Account.mkFields`. -/
def Account.init (first_name last_name : String) (age : Int)
    (state job : String) (account_type : String) (initial_balance : ℚ)
    (account_id : String) : Except BankError Account :=
  if ¬(account_type = "Checking" ∨ account_type = "Savings") then
    .error .invalidCategory
  else
    .ok (Account.mkFields first_name last_name age state job account_type
      initial_balance account_id)

/-- Embeds `Account.deposit`: raises on `amount <= 0`, otherwise adds the
amount to the balance and appends a "Deposit" transaction. -/
def Account.deposit (a : Account) (amount : ℚ) :
    Option BankError × Account :=
  if amount ≤ 0 then (some .invalidAmount, a)
  else
    (none, { a with balance := a.balance + amount,
                    transactions := a.transactions ++
                      [⟨"Deposit", amount, none⟩] })

/-- Embeds `Account.withdraw`: raises on `amount <= 0`, then on
`amount > self.balance`; otherwise subtracts the amount and appends a
"Withdrawal" transaction. -/
def Account.withdraw (a : Account) (amount : ℚ) :
    Option BankError × Account :=
  if amount ≤ 0 then (some .invalidAmount, a)
  else if a.balance < amount then (some .insufficientFunds, a)
  else
    (none, { a with balance := a.balance - amount,
                    transactions := a.transactions ++
                      [⟨"Withdrawal", amount, none⟩] })

/-- Embeds `Account.transfer` for a target that is a different object
from `self`: after the two checks, debits `self`, credits the target,
appends a "Transfer Out" entry to `self` (counterparty = target id) and a
"Transfer In" entry to the target (counterparty = self id). The result
pairs the error (if any) with the states of `(self, target)`. -/
def Account.transfer (a target : Account) (amount : ℚ) :
    Option BankError × Account × Account :=
  if amount ≤ 0 then (some .invalidAmount, a, target)
  else if a.balance < amount then (some .insufficientFunds, a, target)
  else
    (none,
     { a with balance := a.balance - amount,
              transactions := a.transactions ++
                [⟨"Transfer Out", amount, some target.account_id⟩] },
     { target with balance := target.balance + amount,
                   transactions := target.transactions ++
                     [⟨"Transfer In", amount, some a.account_id⟩] })

/-- Embeds the call `a.transfer(a, amount)` in which `self` and
`target_account` alias the same object: the statements of the source run
in order on one account, so the debit and credit cancel and both log
appends land on the same list ("Transfer Out" first, then "Transfer In",
each with the account's own id as counterparty). -/
def Account.transferSelf (a : Account) (amount : ℚ) :
    Option BankError × Account :=
  if amount ≤ 0 then (some .invalidAmount, a)
  else if a.balance < amount then (some .insufficientFunds, a)
  else
    (none, { a with balance := a.balance - amount + amount,
                    transactions := a.transactions ++
                      [⟨"Transfer Out", amount, some a.account_id⟩,
                       ⟨"Transfer In", amount, some a.account_id⟩] })

/-- Embeds `Account.calculate_interest` from the interface variant of the
source (Banking System Interface, lines 107-125): rejects non-Savings
accounts, rejects `annual_rate <= 0 or months <= 0`, then computes
`interest = balance * (annual_rate / 12) * months` and calls
`self.deposit(interest)` (that variant's deposit: same checks and
mutations as `Account.deposit` above). -/
def Account.calculate_interest (a : Account) (annual_rate : ℚ)
    (months : Int) : Option BankError × Account :=
  if a.account_type ≠ "Savings" then (some .invalidCategory, a)
  else if annual_rate ≤ 0 ∨ months ≤ 0 then (some .invalidRate, a)
  else
    a.deposit (a.balance * (annual_rate / 12) * (months : ℚ))

/-- Signed amount of a log entry: Deposit and "Transfer In" count
positive, Withdrawal and "Transfer Out" count negative (spec section 8's
invariant). Only these four kinds are ever produced by the source. -/
def Transaction.signedAmount (t : Transaction) : ℚ :=
  if t.transaction_type = "Deposit" ∨ t.transaction_type = "Transfer In"
  then t.amount
  else if t.transaction_type = "Withdrawal" ∨
          t.transaction_type = "Transfer Out"
  then -t.amount
  else 0

/-- Sum of the signed amounts of a transaction log. -/
def signedSum (ts : List Transaction) : ℚ :=
  (ts.map Transaction.signedAmount).sum

/-- Balance net of the signed log total: for a freshly created account
this equals the initial balance, and it is the quantity the C1 invariant
asserts is preserved by every operation. -/
def Account.netGap (a : Account) : ℚ := a.balance - signedSum a.transactions

/-- The bank's `accounts` dict, modelled as an association list from
account id to account, manipulated only through the dict-faithful
operations below. -/
structure Bank where
  accounts : List (String × Account)
deriving DecidableEq, Repr

/-- Lookup in the accounts dict (`self.accounts[account_id]` guarded by a
membership test in the source): value at the first entry for the key. -/
def lookupAccount (b : Bank) (account_id : String) : Option Account :=
  (b.accounts.find? (fun p => p.1 = account_id)).map (fun p => p.2)

/-- Python dict assignment `d[k] = v`: replace the value at the key when
present, otherwise append a new entry at the end. -/
def dictInsert : List (String × Account) → String → Account →
    List (String × Account)
  | [], k, v => [(k, v)]
  | (k', v') :: rest, k, v =>
      if k' = k then (k, v) :: rest else (k', v') :: dictInsert rest k v

/-- Python dict deletion `del d[k]`: drop the entries for the key (a dict
holds at most one). -/
def dictRemove : List (String × Account) → String → List (String × Account)
  | [], _ => []
  | (k', v') :: rest, k =>
      if k' = k then dictRemove rest k else (k', v') :: dictRemove rest k

/-- Embeds `Bank.get_account`: raises AccountNotFound when the id is
absent, otherwise returns the account. -/
def Bank.getAccount (b : Bank) (account_id : String) :
    Except BankError Account :=
  match lookupAccount b account_id with
  | none => .error .accountNotFound
  | some a => .ok a

/-- Embeds `Bank.create_account` / `Account.__init__`: the constructor's
category check runs before any mutation of the mapping, so an invalid
category raises with the bank unchanged; otherwise the new account is
stored under its freshly generated uuid (passed here as `newId`) and that
id is returned. Result: (raised error, bank state, returned id). -/
def Bank.createAccount (b : Bank) (first_name last_name : String)
    (age : Int) (state job : String) (account_type : String)
    (initial_balance : ℚ) (newId : String) :
    Option BankError × Bank × Option String :=
  match Account.init first_name last_name age state job account_type
      initial_balance newId with
  | .error e => (some e, b, none)
  | .ok acct =>
      (none, ⟨dictInsert b.accounts acct.account_id acct⟩,
       some acct.account_id)

/-- Embeds `Bank.delete_account`: raises AccountNotFound when the id is
absent (mapping untouched), otherwise deletes that entry. -/
def Bank.deleteAccount (b : Bank) (account_id : String) :
    Option BankError × Bank :=
  if (lookupAccount b account_id).isNone then (some .accountNotFound, b)
  else (none, ⟨dictRemove b.accounts account_id⟩)

/-- One balance-mutating operation invoked through the bank, as the CLI
drives them: look the account(s) up, then call the account method. -/
inductive BankOp where
  | deposit (account_id : String) (amount : ℚ)
  | withdraw (account_id : String) (amount : ℚ)
  | transfer (src_id tgt_id : String) (amount : ℚ)
deriving DecidableEq, Repr

/-- Applies one operation to the bank. A transfer whose source and target
ids coincide hands the same object to `transfer` twice in the source, so
it is embedded by `Account.transferSelf`; distinct ids are distinct dict
entries, updated in place as the source mutates the two objects. -/
def Bank.applyOp (b : Bank) : BankOp → Option BankError × Bank
  | .deposit i x =>
      match lookupAccount b i with
      | none => (some .accountNotFound, b)
      | some a =>
          let r := a.deposit x
          (r.1, ⟨dictInsert b.accounts i r.2⟩)
  | .withdraw i x =>
      match lookupAccount b i with
      | none => (some .accountNotFound, b)
      | some a =>
          let r := a.withdraw x
          (r.1, ⟨dictInsert b.accounts i r.2⟩)
  | .transfer s t x =>
      match lookupAccount b s, lookupAccount b t with
      | some sa, some ta =>
          if s = t then
            let r := sa.transferSelf x
            (r.1, ⟨dictInsert b.accounts s r.2⟩)
          else
            let r := sa.transfer ta x
            (r.1, ⟨dictInsert (dictInsert b.accounts s r.2.1) t r.2.2⟩)
      | _, _ => (some .accountNotFound, b)

/-- Runs a sequence of operations; a failing operation leaves the bank in
the state it returned (which, per the account-level results, is the state
from before the call). -/
def execOps (b : Bank) : List BankOp → Bank
  | [] => b
  | op :: ops => execOps (b.applyOp op).2 ops

/-- Decimal digit character for `d % 10` (ASCII 48-57). -/
def digitOf (d : ℕ) : Char := Char.ofNat (48 + d % 10)

/-- Round a rational to the nearest integer, ties to even — the rounding
Python's fixed-point formatting applies to the scaled value. -/
def roundHalfEven (q : ℚ) : ℤ :=
  let f := ⌊q⌋
  let r := q - (f : ℚ)
  if r < 1 / 2 then f
  else if 1 / 2 < r then f + 1
  else if f % 2 = 0 then f else f + 1

/-- Renders a nonnegative scaled-by-100 integer as a fixed two-decimal
numeral, integer part then a point and exactly two digit characters. -/
def twoDecRender (m : ℕ) : String :=
  toString (m / 100) ++ String.mk ['.', digitOf (m / 10 % 10), digitOf (m % 10)]

/-- Models the Python format expression used by the per-account resync,
row["balance"] = f"\x7bself.balance:.2f\x7d": the value rounded to two
decimals and printed with exactly two fractional digits. -/
def formatTwoDec (q : ℚ) : String :=
  let n := roundHalfEven (q * 100)
  if n < 0 then "-" ++ twoDecRender n.natAbs else twoDecRender n.natAbs

/-- Fractional digits to print for a finite-decimal rational: the least
`k ≥ 1` with `q * 10^k` integral (capped at the 17 significant digits a
double can need; every balance in the claims is a short decimal). -/
def minDecimals (q : ℚ) : ℕ :=
  match (List.range 17).find? (fun k => (q * 10 ^ (k + 1)).den = 1) with
  | some k => k + 1
  | none => 17

/-- Most-significant-first digit characters of `m` padded to width `k`. -/
def fracChars : ℕ → ℕ → List Char
  | _, 0 => []
  | m, k + 1 => digitOf (m / 10 ^ k) :: fracChars (m % 10 ^ k) k

/-- Renders a nonnegative finite-decimal rational the way Python's `str`
renders the equal double: shortest decimal form, always keeping at least
one fractional digit (so `str(100.0)` is "100.0", `str(100.5)` is
"100.5" — never forced to two decimals). -/
def pyFloatRender (q : ℚ) : String :=
  let k := minDecimals q
  let n := (⌊q * 10 ^ k⌋).natAbs
  toString (n / 10 ^ k) ++ String.mk ('.' :: fracChars (n % 10 ^ k) k)

/-- Models `str(float)` as the csv writer applies it to the raw `balance`
value in `Bank.export_accounts_to_csv` (sign then shortest decimal). -/
def pyFloatStr (q : ℚ) : String :=
  if q < 0 then "-" ++ pyFloatRender (-q) else pyFloatRender q

/-- One row of the accounts.csv mirror (all cells already strings, as the
csv writer emits them). -/
structure CsvRow where
  account_id : String
  first_name : String
  last_name : String
  age : String
  state : String
  job : String
  account_type : String
  balance : String
deriving DecidableEq, Repr

/-- Row written for an account by the ledger-wide resync
`Bank.export_accounts_to_csv`: the balance cell receives the raw float
value, stringified by the csv writer with no fixed-point formatting. -/
def bankExportRow (a : Account) : CsvRow :=
  { account_id := a.account_id, first_name := a.first_name,
    last_name := a.last_name, age := toString a.age, state := a.state,
    job := a.job, account_type := a.account_type,
    balance := pyFloatStr a.balance }

/-- Row written for an account by the per-account resync
`Account.export_balance_update` (both its update-in-place branch and its
append branch): the balance cell is formatted with `:.2f`. -/
def balanceUpdateRow (a : Account) : CsvRow :=
  { account_id := a.account_id, first_name := a.first_name,
    last_name := a.last_name, age := toString a.age, state := a.state,
    job := a.job, account_type := a.account_type,
    balance := formatTwoDec a.balance }

/-- Number of characters after the last point of the reversed character
list, `none` when no point occurs. -/
def fracLen : List Char → Option ℕ
  | [] => none
  | c :: rest => if c = '.' then some 0 else (fracLen rest).map (· + 1)

/-- Number of decimal places of a numeral string: characters after its
last point. -/
def decimalsAfterPoint (s : String) : Option ℕ := fracLen s.data.reverse

/-- The serialized-balance property of spec section 6: the cell shows
exactly two decimal places. -/
def hasTwoDecimalPlaces (s : String) : Bool :=
  decimalsAfterPoint s = some 2

/-- Concrete checking account used to instantiate the theorems. -/
def acctA : Account :=
  Account.mkFields "Ann" "Ames" 30 "Iowa" "Clerk" "Checking" 5 "A"

/-- Concrete second account (distinct id) for transfer instances. -/
def acctB : Account :=
  Account.mkFields "Bea" "Bond" 41 "Ohio" "Cook" "Savings" 2 "B"

/-- Concrete one-account bank for the trace instances. -/
def bankA : Bank := ⟨[("A", acctA)]⟩

/-- Concrete operation trace: deposit 3 then withdraw 2 on account "A". -/
def opsA : List BankOp := [.deposit "A" 3, .withdraw "A" 2]

/-- State of account "A" after running `opsA` from `bankA`. -/
def acctA' : Account :=
  { acctA with balance := 6,
               transactions := [⟨"Deposit", 3, none⟩,
                                ⟨"Withdrawal", 2, none⟩] }

/-- Concrete savings account with zero balance (the default initial
balance of the constructors). -/
def zeroSavings : Account :=
  Account.mkFields "Sam" "Soto" 40 "Ohio" "Cook" "Savings" 0 "S0"

/-- Concrete savings account holding 1200.00, spec section 8 scenario 4. -/
def savings1200 : Account :=
  Account.mkFields "Sal" "Sage" 52 "Utah" "Chef" "Savings" 1200 "S1"

/-- Concrete checking account holding 100.50 (an exactly representable
balance whose raw float rendering is "100.5"). -/
def halfAccount : Account :=
  Account.mkFields "Hal" "Hale" 30 "Utah" "Chef" "Checking" (201 / 2) "H1"

theorem signedAmount_deposit_entry (x : ℚ) (c : Option String) :
    Transaction.signedAmount ⟨"Deposit", x, c⟩ = x := by
  simp [Transaction.signedAmount]

theorem signedAmount_withdrawal_entry (x : ℚ) (c : Option String) :
    Transaction.signedAmount ⟨"Withdrawal", x, c⟩ = -x := by
  simp [Transaction.signedAmount]

theorem signedAmount_transfer_out_entry (x : ℚ) (c : Option String) :
    Transaction.signedAmount ⟨"Transfer Out", x, c⟩ = -x := by
  simp [Transaction.signedAmount]

theorem signedAmount_transfer_in_entry (x : ℚ) (c : Option String) :
    Transaction.signedAmount ⟨"Transfer In", x, c⟩ = x := by
  simp [Transaction.signedAmount]

theorem signedSum_append (l1 l2 : List Transaction) :
    signedSum (l1 ++ l2) = signedSum l1 + signedSum l2 := by
  simp [signedSum]

theorem lookupAccount_dictInsert_self (l : List (String × Account))
    (k : String) (v : Account) :
    lookupAccount ⟨dictInsert l k v⟩ k = some v := by
  induction l with
  | nil => simp [dictInsert, lookupAccount, List.find?]
  | cons hd tl ih =>
      obtain ⟨k', v'⟩ := hd
      by_cases h : k' = k
      · simp [dictInsert, h, lookupAccount, List.find?]
      · simpa [dictInsert, h, lookupAccount, List.find?] using ih

theorem lookupAccount_dictInsert_ne (l : List (String × Account))
    (k i : String) (v : Account) (h : i ≠ k) :
    lookupAccount ⟨dictInsert l k v⟩ i = lookupAccount ⟨l⟩ i := by
  induction l with
  | nil => simp [dictInsert, lookupAccount, List.find?, Ne.symm h]
  | cons hd tl ih =>
      obtain ⟨k', v'⟩ := hd
      by_cases hk : k' = k
      · subst hk
        simp [dictInsert, lookupAccount, List.find?, Ne.symm h]
      · by_cases hi : k' = i
        · subst hi
          simp [dictInsert, hk, lookupAccount, List.find?, h]
        · simpa [dictInsert, hk, lookupAccount, List.find?, hi] using ih

theorem lookupAccount_dictRemove_self (l : List (String × Account))
    (k : String) :
    lookupAccount ⟨dictRemove l k⟩ k = none := by
  induction l with
  | nil => simp [dictRemove, lookupAccount, List.find?]
  | cons hd tl ih =>
      obtain ⟨k', v'⟩ := hd
      by_cases h : k' = k
      · simpa [dictRemove, h] using ih
      · simpa [dictRemove, h, lookupAccount, List.find?] using ih

theorem lookupAccount_dictRemove_ne (l : List (String × Account))
    (k i : String) (h : i ≠ k) :
    lookupAccount ⟨dictRemove l k⟩ i = lookupAccount ⟨l⟩ i := by
  induction l with
  | nil => simp [dictRemove]
  | cons hd tl ih =>
      obtain ⟨k', v'⟩ := hd
      by_cases hk : k' = k
      · subst hk
        simpa [dictRemove, lookupAccount, List.find?, Ne.symm h] using ih
      · by_cases hi : k' = i
        · subst hi
          simp [dictRemove, hk, lookupAccount, List.find?, h]
        · simpa [dictRemove, hk, lookupAccount, List.find?, hi] using ih

theorem netGap_deposit (a : Account) (x : ℚ) :
    ((a.deposit x).2).netGap = a.netGap := by
  unfold Account.deposit
  split
  · rfl
  · unfold Account.netGap
    simp [signedSum_append, signedSum, signedAmount_deposit_entry]
    try ring

theorem netGap_withdraw (a : Account) (x : ℚ) :
    ((a.withdraw x).2).netGap = a.netGap := by
  unfold Account.withdraw
  split
  · rfl
  · split
    · rfl
    · unfold Account.netGap
      simp [signedSum_append, signedSum, signedAmount_withdrawal_entry]
      try ring

theorem netGap_transferSelf (a : Account) (x : ℚ) :
    ((a.transferSelf x).2).netGap = a.netGap := by
  unfold Account.transferSelf
  split
  · rfl
  · split
    · rfl
    · unfold Account.netGap
      simp [signedSum_append, signedSum, signedAmount_transfer_out_entry,
        signedAmount_transfer_in_entry]
      try ring

theorem netGap_transfer_fst (a b : Account) (x : ℚ) :
    ((a.transfer b x).2.1).netGap = a.netGap := by
  unfold Account.transfer
  split
  · rfl
  · split
    · rfl
    · unfold Account.netGap
      simp [signedSum_append, signedSum, signedAmount_transfer_out_entry]
      try ring

theorem netGap_transfer_snd (a b : Account) (x : ℚ) :
    ((a.transfer b x).2.2).netGap = b.netGap := by
  unfold Account.transfer
  split
  · rfl
  · split
    · rfl
    · unfold Account.netGap
      simp [signedSum_append, signedSum, signedAmount_transfer_in_entry]
      try ring

theorem nonneg_deposit (a : Account) (x : ℚ) (h : 0 ≤ a.balance) :
    0 ≤ ((a.deposit x).2).balance := by
  unfold Account.deposit
  split
  · exact h
  · next hx => simp only; linarith [not_le.mp hx]

theorem nonneg_withdraw (a : Account) (x : ℚ) (h : 0 ≤ a.balance) :
    0 ≤ ((a.withdraw x).2).balance := by
  unfold Account.withdraw
  split
  · exact h
  · split
    · exact h
    · next _ hlt => simp only; linarith [not_lt.mp hlt]

theorem nonneg_transferSelf (a : Account) (x : ℚ) (h : 0 ≤ a.balance) :
    0 ≤ ((a.transferSelf x).2).balance := by
  unfold Account.transferSelf
  split
  · exact h
  · split
    · exact h
    · simp only
      linarith

theorem nonneg_transfer_fst (a b : Account) (x : ℚ) (h : 0 ≤ a.balance) :
    0 ≤ ((a.transfer b x).2.1).balance := by
  unfold Account.transfer
  split
  · exact h
  · split
    · exact h
    · next _ hlt => simp only; linarith [not_lt.mp hlt]

theorem nonneg_transfer_snd (a b : Account) (x : ℚ) (h : 0 ≤ b.balance) :
    0 ≤ ((a.transfer b x).2.2).balance := by
  unfold Account.transfer
  split
  · exact h
  · split
    · exact h
    · next hx _ => simp only; linarith [not_le.mp hx]


theorem applyOp_lookup (b : Bank) (op : BankOp) (i : String) (a' : Account)
    (h : lookupAccount (b.applyOp op).2 i = some a') :
    ∃ a, lookupAccount b i = some a ∧ a'.netGap = a.netGap ∧
      (0 ≤ a.balance → 0 ≤ a'.balance) := by
  cases op with
  | deposit j x =>
      cases hj : lookupAccount b j with
      | none =>
          simp only [Bank.applyOp, hj] at h
          exact ⟨a', h, rfl, id⟩
      | some aj =>
          simp only [Bank.applyOp, hj] at h
          by_cases hij : i = j
          · subst hij
            rw [lookupAccount_dictInsert_self] at h
            cases h
            exact ⟨aj, hj, netGap_deposit aj x, nonneg_deposit aj x⟩
          · rw [lookupAccount_dictInsert_ne _ _ _ _ hij] at h
            exact ⟨a', h, rfl, id⟩
  | withdraw j x =>
      cases hj : lookupAccount b j with
      | none =>
          simp only [Bank.applyOp, hj] at h
          exact ⟨a', h, rfl, id⟩
      | some aj =>
          simp only [Bank.applyOp, hj] at h
          by_cases hij : i = j
          · subst hij
            rw [lookupAccount_dictInsert_self] at h
            cases h
            exact ⟨aj, hj, netGap_withdraw aj x, nonneg_withdraw aj x⟩
          · rw [lookupAccount_dictInsert_ne _ _ _ _ hij] at h
            exact ⟨a', h, rfl, id⟩
  | transfer s t x =>
      cases hs : lookupAccount b s with
      | none =>
          simp only [Bank.applyOp, hs] at h
          exact ⟨a', h, rfl, id⟩
      | some sa =>
          cases ht : lookupAccount b t with
          | none =>
              simp only [Bank.applyOp, hs, ht] at h
              exact ⟨a', h, rfl, id⟩
          | some ta =>
              by_cases hst : s = t
              · simp only [Bank.applyOp, hs, ht, if_pos hst] at h
                by_cases his : i = s
                · subst his
                  rw [lookupAccount_dictInsert_self] at h
                  cases h
                  exact ⟨sa, hs, netGap_transferSelf sa x,
                    nonneg_transferSelf sa x⟩
                · rw [lookupAccount_dictInsert_ne _ _ _ _ his] at h
                  exact ⟨a', h, rfl, id⟩
              · simp only [Bank.applyOp, hs, ht, if_neg hst] at h
                by_cases hit : i = t
                · subst hit
                  rw [lookupAccount_dictInsert_self] at h
                  cases h
                  exact ⟨ta, ht, netGap_transfer_snd sa ta x,
                    nonneg_transfer_snd sa ta x⟩
                · rw [lookupAccount_dictInsert_ne _ _ _ _ hit] at h
                  by_cases his : i = s
                  · subst his
                    rw [lookupAccount_dictInsert_self] at h
                    cases h
                    exact ⟨sa, hs, netGap_transfer_fst sa ta x,
                      nonneg_transfer_fst sa ta x⟩
                  · rw [lookupAccount_dictInsert_ne _ _ _ _ his] at h
                    exact ⟨a', h, rfl, id⟩

theorem execOps_lookup (ops : List BankOp) (b : Bank) (i : String)
    (a' : Account) (h : lookupAccount (execOps b ops) i = some a') :
    ∃ a, lookupAccount b i = some a ∧ a'.netGap = a.netGap ∧
      (0 ≤ a.balance → 0 ≤ a'.balance) := by
  induction ops generalizing b with
  | nil => exact ⟨a', h, rfl, id⟩
  | cons op ops ih =>
      unfold execOps at h
      obtain ⟨a1, ha1, hgap1, hpos1⟩ := ih (b.applyOp op).2 h
      obtain ⟨a0, ha0, hgap0, hpos0⟩ := applyOp_lookup b op i a1 ha1
      exact ⟨a0, ha0, hgap1.trans hgap0, fun hb => hpos1 (hpos0 hb)⟩

/-- C1: for every account, after any sequence of successful deposit,
withdraw, and transfer operations starting from creation (empty log,
balance = initial balance), the balance equals the initial balance plus
the sum of the signed amounts of the transactions in its log, Deposit and
Transfer In counting positive and Withdrawal and Transfer Out negative.
Failed operations leave the account as they found it, so an arbitrary
operation list covers exactly the successful subsequences. -/
theorem balance_equals_initial_plus_signed_sum
    (ops : List BankOp) (b : Bank) (i : String) (init : ℚ) (a a' : Account)
    (h0 : lookupAccount b i = some a) (h1 : a.transactions = [])
    (h2 : a.balance = init)
    (h3 : lookupAccount (execOps b ops) i = some a') :
    a'.balance = init + signedSum a'.transactions := by
  obtain ⟨a0, ha0, hgap, _⟩ := execOps_lookup ops b i a' h3
  rw [h0] at ha0
  obtain rfl : a = a0 := Option.some.inj ha0
  have hg : a'.balance - signedSum a'.transactions =
      a.balance - signedSum a.transactions := hgap
  rw [h1, h2] at hg
  have hz : signedSum ([] : List Transaction) = 0 := rfl
  rw [hz] at hg
  linarith

/-- Witness for C1: starting from a bank holding account "A" with
initial balance 5 and empty log, depositing 3 and withdrawing 2 yields an
account whose balance 6 equals 5 plus its signed log total. -/
theorem balance_equals_initial_plus_signed_sum_witness :
    acctA'.balance = 5 + signedSum acctA'.transactions :=
  balance_equals_initial_plus_signed_sum opsA bankA "A" 5 acctA acctA'
    (by decide) (by decide) (by decide)
    (by norm_num [execOps, opsA, Bank.applyOp, bankA, lookupAccount,
      List.find?, dictInsert, acctA, acctA', Account.mkFields,
      Account.deposit, Account.withdraw])

/-- C2: for distinct accounts A and B and 0 < x <= A.balance, transfer
succeeds, A's balance drops by exactly x, B's rises by exactly x, A's log
gains exactly one Transfer Out entry with counterparty B's id and B's log
exactly one Transfer In entry with counterparty A's id; on each failure
path (x <= 0, or x exceeding A's balance) the error is raised with both
accounts exactly as they were. -/
theorem transfer_atomicity (a b : Account) (x : ℚ)
    (_hne : a.account_id ≠ b.account_id) :
    (0 < x → x ≤ a.balance →
      a.transfer b x =
        (none,
         { a with balance := a.balance - x,
                  transactions := a.transactions ++
                    [⟨"Transfer Out", x, some b.account_id⟩] },
         { b with balance := b.balance + x,
                  transactions := b.transactions ++
                    [⟨"Transfer In", x, some a.account_id⟩] })) ∧
    (x ≤ 0 → a.transfer b x = (some .invalidAmount, a, b)) ∧
    (0 < x → a.balance < x →
      a.transfer b x = (some .insufficientFunds, a, b)) := by
  refine ⟨fun h1 h2 => ?_, fun h0 => ?_, fun h1 h2 => ?_⟩
  · unfold Account.transfer
    rw [if_neg (not_le.mpr h1), if_neg (not_lt.mpr h2)]
  · unfold Account.transfer
    rw [if_pos h0]
  · unfold Account.transfer
    rw [if_neg (not_le.mpr h1), if_pos h2]

/-- Witness for C2: transferring 3 from account "A" (balance 5) to
account "B" (balance 2) leaves balances 2 and 5 and the two matching
counterparty entries. -/
theorem transfer_atomicity_witness :
    acctA.transfer acctB 3 =
      (none,
       { acctA with balance := 2,
                    transactions := [⟨"Transfer Out", 3, some "B"⟩] },
       { acctB with balance := 5,
                    transactions := [⟨"Transfer In", 3, some "A"⟩] }) := by
  have h := (transfer_atomicity acctA acctB 3 (by decide)).1 (by norm_num)
    (by norm_num [acctA, Account.mkFields])
  refine h.trans ?_
  norm_num [acctA, acctB, Account.mkFields]

/-- C3: on an account with nonnegative balance, any amount strictly above
the balance makes withdraw and transfer raise InsufficientFunds with all
state unchanged, and no successful withdraw or transfer ever leaves the
(source) balance negative. -/
theorem insufficient_funds_guard (a b : Account) (x y : ℚ)
    (hb : 0 ≤ a.balance) (hx : a.balance < x) :
    a.withdraw x = (some .insufficientFunds, a) ∧
    a.transfer b x = (some .insufficientFunds, a, b) ∧
    ((a.withdraw y).1 = none → 0 ≤ ((a.withdraw y).2).balance) ∧
    ((a.transfer b y).1 = none → 0 ≤ ((a.transfer b y).2.1).balance) := by
  have hx0 : ¬ x ≤ 0 := by linarith
  refine ⟨?_, ?_, fun _ => nonneg_withdraw a y hb,
    fun _ => nonneg_transfer_fst a b y hb⟩
  · unfold Account.withdraw
    rw [if_neg hx0, if_pos hx]
  · unfold Account.transfer
    rw [if_neg hx0, if_pos hx]

/-- Witness for C3: withdrawing 10 from account "B" (balance 2) raises
InsufficientFunds and leaves the account unchanged. -/
theorem insufficient_funds_guard_witness :
    acctB.withdraw 10 = (some .insufficientFunds, acctB) :=
  (insufficient_funds_guard acctB acctA 10 1
    (by norm_num [acctB, Account.mkFields])
    (by norm_num [acctB, Account.mkFields])).1

/-- C4: a nonpositive amount makes deposit, withdraw, and transfer (also
the aliased self-transfer) raise InvalidAmount with every involved
account's balance and log unchanged. -/
theorem nonpositive_amount_rejected (a b : Account) (x : ℚ) (hx : x ≤ 0) :
    a.deposit x = (some .invalidAmount, a) ∧
    a.withdraw x = (some .invalidAmount, a) ∧
    a.transfer b x = (some .invalidAmount, a, b) ∧
    a.transferSelf x = (some .invalidAmount, a) := by
  refine ⟨?_, ?_, ?_, ?_⟩
  · unfold Account.deposit
    rw [if_pos hx]
  · unfold Account.withdraw
    rw [if_pos hx]
  · unfold Account.transfer
    rw [if_pos hx]
  · unfold Account.transferSelf
    rw [if_pos hx]

/-- Witness for C4: depositing 0 into account "A" raises InvalidAmount
and changes nothing. -/
theorem nonpositive_amount_rejected_witness :
    acctA.deposit 0 = (some .invalidAmount, acctA) :=
  (nonpositive_amount_rejected acctA acctB 0 (by norm_num)).1

/-- C9: a self-transfer of 0 < x <= balance does not raise; the debit and
credit cancel so the balance is unchanged, and the log gains a Transfer
Out entry then a Transfer In entry, each with the account's own id as
counterparty. -/
theorem self_transfer_behaviour (a : Account) (x : ℚ)
    (h1 : 0 < x) (h2 : x ≤ a.balance) :
    a.transferSelf x =
      (none, { a with transactions := a.transactions ++
        [⟨"Transfer Out", x, some a.account_id⟩,
         ⟨"Transfer In", x, some a.account_id⟩] }) := by
  unfold Account.transferSelf
  rw [if_neg (not_le.mpr h1), if_neg (not_lt.mpr h2), sub_add_cancel]

/-- Witness for C9: a self-transfer of the full balance 5 of account "A"
leaves the balance at 5 and appends the two self-referencing entries. -/
theorem self_transfer_behaviour_witness :
    acctA.transferSelf 5 =
      (none, { acctA with transactions :=
        [⟨"Transfer Out", 5, some "A"⟩, ⟨"Transfer In", 5, some "A"⟩] }) := by
  have h := self_transfer_behaviour acctA 5 (by norm_num)
    (by norm_num [acctA, Account.mkFields])
  refine h.trans ?_
  norm_num [acctA, Account.mkFields]

/-- Corrected C5 counterexample: on a Savings account whose balance is 0
(the constructors' default initial balance), accrue_interest with a valid
positive rate and month count does not append a Deposit transaction — the
computed interest 0 is routed through deposit, whose amount check raises
InvalidAmount, leaving the account unchanged. The claim asserts this call
appends exactly one Deposit entry and only fails via InvalidCategory or
InvalidRate. -/
theorem accrue_interest_counterexample :
    zeroSavings.account_type = "Savings" ∧ (0 : ℚ) < 6 / 100 ∧
    (0 : Int) < 1 ∧
    zeroSavings.calculate_interest (6 / 100) 1 =
      (some .invalidAmount, zeroSavings) := by
  refine ⟨rfl, by norm_num, by norm_num, ?_⟩
  unfold Account.calculate_interest Account.deposit
  norm_num [zeroSavings, Account.mkFields]

/-- Amended C5: accrue_interest fails with InvalidCategory if the
account is not Savings and with InvalidRate if annual_rate <= 0 or
months <= 0, in both cases leaving the account unchanged; otherwise it
computes interest = balance * (annual_rate/12) * months and routes it
through deposit, so when the balance (hence the interest) is positive
exactly one Deposit transaction of that amount is appended and the
balance increases by it, while a nonpositive balance makes the deposit
path raise InvalidAmount with the account unchanged. -/
theorem accrue_interest_amended (a : Account) (rate : ℚ) (months : Int) :
    (a.account_type ≠ "Savings" →
      a.calculate_interest rate months = (some .invalidCategory, a)) ∧
    (a.account_type = "Savings" → rate ≤ 0 ∨ months ≤ 0 →
      a.calculate_interest rate months = (some .invalidRate, a)) ∧
    (a.account_type = "Savings" → 0 < rate → 0 < months →
      (0 < a.balance →
        a.calculate_interest rate months =
          (none, { a with
            balance := a.balance + a.balance * (rate / 12) * (months : ℚ),
            transactions := a.transactions ++
              [⟨"Deposit", a.balance * (rate / 12) * (months : ℚ),
                none⟩] })) ∧
      (a.balance ≤ 0 →
        a.calculate_interest rate months = (some .invalidAmount, a))) := by
  refine ⟨fun hcat => ?_, fun hcat hor => ?_, fun hcat hrate hm => ?_⟩
  · unfold Account.calculate_interest
    rw [if_pos hcat]
  · unfold Account.calculate_interest
    rw [if_neg (by simp [hcat]), if_pos hor]
  · have hm' : (0 : ℚ) < (months : ℚ) := by exact_mod_cast hm
    have hr12 : (0 : ℚ) < rate / 12 := by positivity
    constructor
    · intro hbal
      have hint : 0 < a.balance * (rate / 12) * (months : ℚ) := by
        positivity
      unfold Account.calculate_interest
      rw [if_neg (by simp [hcat]),
        if_neg (by push_neg; exact ⟨hrate, hm⟩)]
      unfold Account.deposit
      rw [if_neg (not_le.mpr hint)]
    · intro hbal
      have hint : a.balance * (rate / 12) * (months : ℚ) ≤ 0 := by
        have h1 : a.balance * (rate / 12) ≤ 0 :=
          mul_nonpos_of_nonpos_of_nonneg hbal (le_of_lt hr12)
        exact mul_nonpos_of_nonpos_of_nonneg h1 (le_of_lt hm')
      unfold Account.calculate_interest
      rw [if_neg (by simp [hcat]),
        if_neg (by push_neg; exact ⟨hrate, hm⟩)]
      unfold Account.deposit
      rw [if_pos hint]

/-- Witness for amended C5 (spec section 8 scenario 4): a Savings account
with balance 1200.00 after accrue_interest(0.06, 1) has balance 1206.00
and exactly one Deposit transaction of 6.00. -/
theorem accrue_interest_amended_witness :
    savings1200.calculate_interest (6 / 100) 1 =
      (none, { savings1200 with
               balance := 1206,
               transactions := [⟨"Deposit", 6, none⟩] }) := by
  have h := ((accrue_interest_amended savings1200 (6 / 100) 1).2.2 rfl
    (by norm_num) (by norm_num)).1
    (by norm_num [savings1200, Account.mkFields])
  refine h.trans ?_
  norm_num [savings1200, Account.mkFields]

/-- C7: create_account with a category other than Checking or Savings
fails with InvalidCategory and leaves the mapping unchanged; with a valid
category it constructs the account from the given holder fields, category
and initial balance, stores it under the freshly generated id, returns
that id, and get_account on the returned id yields the new account. -/
theorem create_account_behaviour (b : Bank) (fn ln : String) (age : Int)
    (st jb cat : String) (init : ℚ) (newId : String) :
    (¬(cat = "Checking" ∨ cat = "Savings") →
      b.createAccount fn ln age st jb cat init newId =
        (some .invalidCategory, b, none)) ∧
    ((cat = "Checking" ∨ cat = "Savings") →
      b.createAccount fn ln age st jb cat init newId =
        (none,
         ⟨dictInsert b.accounts newId
           (Account.mkFields fn ln age st jb cat init newId)⟩,
         some newId) ∧
      Bank.getAccount
        ⟨dictInsert b.accounts newId
          (Account.mkFields fn ln age st jb cat init newId)⟩ newId =
        .ok (Account.mkFields fn ln age st jb cat init newId)) := by
  constructor
  · intro hcat
    unfold Bank.createAccount Account.init
    rw [if_pos hcat]
  · intro hcat
    constructor
    · unfold Bank.createAccount Account.init
      rw [if_neg (not_not_intro hcat)]
      rfl
    · unfold Bank.getAccount
      rw [lookupAccount_dictInsert_self]


/-- Witness for C7: creating a Savings account with balance 50 in the
empty bank stores it under the generated id "C1" and returns that id. -/
theorem create_account_behaviour_witness :
    Bank.createAccount ⟨[]⟩ "Cara" "Cole" 25 "Iowa" "Aide" "Savings" 50
        "C1" =
      (none,
       ⟨[("C1",
          Account.mkFields "Cara" "Cole" 25 "Iowa" "Aide" "Savings" 50
            "C1")]⟩,
       some "C1") := by
  have h := (create_account_behaviour ⟨[]⟩ "Cara" "Cole" 25 "Iowa" "Aide"
    "Savings" 50 "C1").2 (Or.inr rfl)
  exact h.1.trans (by rw [dictInsert])

/-- C8: delete_account and get_account on an absent id raise
AccountNotFound with the mapping unchanged; on a present id,
delete_account succeeds, removes exactly that account (a subsequent
get_account raises AccountNotFound), and every other id still maps to the
very same account — balances and transaction logs, including Transfer
In/Out records referencing the deleted id, are untouched. -/
theorem delete_account_behaviour (b : Bank) (i : String) :
    (lookupAccount b i = none →
      b.deleteAccount i = (some .accountNotFound, b) ∧
      b.getAccount i = .error .accountNotFound) ∧
    (∀ a, lookupAccount b i = some a →
      (b.deleteAccount i).1 = none ∧
      lookupAccount (b.deleteAccount i).2 i = none ∧
      (b.deleteAccount i).2.getAccount i = .error .accountNotFound ∧
      ∀ j, j ≠ i →
        lookupAccount (b.deleteAccount i).2 j = lookupAccount b j) := by
  constructor
  · intro hnone
    constructor
    · unfold Bank.deleteAccount
      rw [hnone]
      rfl
    · unfold Bank.getAccount
      rw [hnone]
  · intro a ha
    have hdel : b.deleteAccount i = (none, ⟨dictRemove b.accounts i⟩) := by
      unfold Bank.deleteAccount
      rw [ha]
      rfl
    refine ⟨by rw [hdel], ?_, ?_, ?_⟩
    · rw [hdel]
      exact lookupAccount_dictRemove_self b.accounts i
    · rw [hdel]
      unfold Bank.getAccount
      rw [lookupAccount_dictRemove_self]
    · intro j hj
      rw [hdel]
      exact lookupAccount_dictRemove_ne b.accounts i j hj

/-- Witness for C8: deleting the present id "A" from the one-account bank
succeeds and a subsequent lookup of "A" finds nothing. -/
theorem delete_account_behaviour_witness :
    (bankA.deleteAccount "A").1 = none ∧
    lookupAccount (bankA.deleteAccount "A").2 "A" = none := by
  have h := (delete_account_behaviour bankA "A").2 acctA (by decide)
  exact ⟨h.1, h.2.1⟩

/-- C10: neither Account construction nor create_account checks
initial_balance — with a valid category and a negative initial balance
both succeed and the new account's balance is negative; and the
balance-nonnegativity invariant does hold of every account reachable by
deposit/withdraw/transfer traces from a bank whose accounts all start
with nonnegative balances. -/
theorem no_initial_balance_check (fn ln : String) (age : Int)
    (st jb cat : String) (init : ℚ) (newId : String) (b : Bank)
    (ops : List BankOp)
    (hcat : cat = "Checking" ∨ cat = "Savings") (hneg : init < 0) :
    (Account.init fn ln age st jb cat init newId =
       .ok (Account.mkFields fn ln age st jb cat init newId) ∧
     (Account.mkFields fn ln age st jb cat init newId).balance < 0) ∧
    (b.createAccount fn ln age st jb cat init newId).1 = none ∧
    ((∀ j a, lookupAccount b j = some a → 0 ≤ a.balance) →
      ∀ j a', lookupAccount (execOps b ops) j = some a' →
        0 ≤ a'.balance) := by
  refine ⟨⟨?_, hneg⟩, ?_, ?_⟩
  · unfold Account.init
    rw [if_neg (not_not_intro hcat)]
  · unfold Bank.createAccount Account.init
    rw [if_neg (not_not_intro hcat)]
  · intro hall j a' h
    obtain ⟨a0, ha0, _, hpos⟩ := execOps_lookup ops b j a' h
    exact hpos (hall j a0 ha0)

/-- Witness for C10: constructing a Checking account with initial balance
-5 succeeds and yields a negative balance. -/
theorem no_initial_balance_check_witness :
    Account.init "Neg" "Nash" 33 "Iowa" "Aide" "Checking" (-5) "N1" =
      .ok (Account.mkFields "Neg" "Nash" 33 "Iowa" "Aide" "Checking" (-5)
        "N1") ∧
    (Account.mkFields "Neg" "Nash" 33 "Iowa" "Aide" "Checking" (-5)
      "N1").balance < 0 :=
  (no_initial_balance_check "Neg" "Nash" 33 "Iowa" "Aide" "Checking" (-5)
    "N1" ⟨[]⟩ [] (Or.inl rfl) (by norm_num)).1

theorem digitOf_ne_dot (d : ℕ) : digitOf d ≠ '.' := by
  unfold digitOf
  have h : d % 10 < 10 := Nat.mod_lt _ (by norm_num)
  set r := d % 10 with hr
  interval_cases r <;> decide

theorem fracLen_two (c1 c2 : Char) (rest : List Char)
    (h1 : c1 ≠ '.') (h2 : c2 ≠ '.') :
    fracLen (c2 :: c1 :: '.' :: rest) = some 2 := by
  simp [fracLen, h1, h2]

theorem decimalsAfterPoint_twoDecRender (m : ℕ) :
    decimalsAfterPoint (twoDecRender m) = some 2 := by
  unfold decimalsAfterPoint twoDecRender
  rw [String.data_append]
  rw [List.reverse_append]
  exact fracLen_two _ _ _ (digitOf_ne_dot _) (digitOf_ne_dot _)

theorem decimalsAfterPoint_neg_twoDecRender (m : ℕ) :
    decimalsAfterPoint ("-" ++ twoDecRender m) = some 2 := by
  unfold decimalsAfterPoint twoDecRender
  rw [String.data_append, String.data_append]
  rw [List.reverse_append, List.reverse_append]
  simp only [List.append_assoc]
  exact fracLen_two _ _ _ (digitOf_ne_dot _) (digitOf_ne_dot _)

/-- Amended C6: rows written by the per-account resync
(Account.export_balance_update) serialize the balance with exactly two
decimal places; the ledger-wide resync (Bank.export_accounts_to_csv)
writes the raw float value instead, with no fixed-point formatting. -/
theorem balance_update_rows_two_decimals (a : Account) :
    hasTwoDecimalPlaces ((balanceUpdateRow a).balance) = true := by
  show hasTwoDecimalPlaces (formatTwoDec a.balance) = true
  simp only [hasTwoDecimalPlaces, decide_eq_true_eq]
  simp only [formatTwoDec]
  split
  · exact decimalsAfterPoint_neg_twoDecRender _
  · exact decimalsAfterPoint_twoDecRender _

/-- Corrected C6 counterexample: the constructible account with balance
100.50 is written by the ledger-wide resync with balance cell "100.5" —
one decimal place, not two (the per-account resync would write
"100.50"). -/
theorem bank_export_two_decimals_counterexample :
    Account.init "Hal" "Hale" 30 "Utah" "Chef" "Checking" (201 / 2)
        "H1" = .ok halfAccount ∧
    (bankExportRow halfAccount).balance = "100.5" ∧
    hasTwoDecimalPlaces ((bankExportRow halfAccount).balance) = false := by
  refine ⟨rfl, ?_, ?_⟩
  · show pyFloatStr (halfAccount.balance) = "100.5"
    norm_num [halfAccount, Account.mkFields, pyFloatStr, pyFloatRender,
      minDecimals, fracChars, digitOf, List.range, List.range.loop,
      List.find?]
    decide
  · show hasTwoDecimalPlaces (pyFloatStr (halfAccount.balance)) = false
    norm_num [halfAccount, Account.mkFields, pyFloatStr, pyFloatRender,
      minDecimals, fracChars, digitOf, List.range, List.range.loop,
      List.find?, hasTwoDecimalPlaces, decimalsAfterPoint, fracLen]
    decide
